import Mathlib

/-!
Verification of the troi-recommendation-playground pipeline core against its
natural-language specification.  The Python source is embedded shallowly:
pure functions become Lean functions, exceptions become an `Except` with an
explicit error kind, and element construction becomes construction of an
inductive pipeline description threaded with an explicit I/O-event trace.
-/

namespace Troi

/-- The two exception kinds the embedded code can raise: the pipeline-specific
`PipelineError` and Python's generic `RuntimeError`, each carrying its
message string (`src/troi/tools/area_lookup.py`, `src/troi/patches/periodic_jams.py`). -/
inductive PyError where
  | pipelineError (msg : String)
  | runtimeError (msg : String)
  deriving DecidableEq, Repr

/-- Whether a raised error is a `PipelineError`. -/
def PyError.isPipelineError : PyError → Bool
  | .pipelineError _ => true
  | .runtimeError _ => false

/-- An HTTP response as observed by `area_lookup`: the status code and the
body text (the fields of `requests`' response that the code reads). -/
structure HttpResponse where
  status_code : Nat
  text : String
  deriving DecidableEq, Repr

/-- One row of the area-lookup service's JSON answer: the code reads only
`rows[0]['area_id']`. -/
structure AreaRow where
  area_id : Nat
  deriving DecidableEq, Repr

/-- `area_lookup` from `src/troi/tools/area_lookup.py`, embedded over an
already-received response `r` and a JSON parser `parse` standing for
`ujson.loads` (a parse failure is `ValueError err`).  Mirrors the source:
non-200 status raises `PipelineError` with the response text appended;
a parse failure raises `PipelineError` with the parse error appended;
an empty row list raises `RuntimeError`; otherwise the first row's
`area_id` is returned. -/
def area_lookup (parse : String → Except String (List AreaRow))
    (r : HttpResponse) : Except PyError Nat :=
  if r.status_code ≠ 200 then
    .error (.pipelineError ("Cannot lookup area name. " ++ r.text))
  else
    match parse r.text with
    | .error err =>
        .error (.pipelineError ("Cannot lookup area name, invalid JSON returned: " ++ err))
    | .ok rows =>
        match rows with
        | [] => .error (.runtimeError "Cannot find area name. Must be spelled exactly as in MusicBrainz.")
        | row :: _ => .ok row.area_id

/-- The state of a `Patch` instance (`src/troi/patch.py`).  Python's
`self._local_storage` dict is embedded as an association list in which a
write conses the new pair on the front, so that `List.lookup` (first match)
realises the dict's last-write-wins read.  `__init__` sets it to `{}`. -/
structure PatchState where
  _local_storage : List (String × String)
  deriving DecidableEq, Repr

/-- `Patch.__init__` (`src/troi/patch.py` line 16): the local-storage dict
starts empty. -/
def Patch.init : PatchState := { _local_storage := [] }

/-- The `local_storage` property (`src/troi/patch.py` lines 32-39): it
returns `self._local_storage` itself, so in the state-passing embedding a
read is exactly the projection of the current state's field. -/
def Patch.local_storage (p : PatchState) : List (String × String) :=
  p._local_storage

/-- Writing `patch.local_storage[k] = v`: because the property hands out the
underlying dict by reference, a write through it updates the patch state. -/
def Patch.storageSet (p : PatchState) (k v : String) : PatchState :=
  { p with _local_storage := (k, v) :: p._local_storage }

/-- Reading `patch.local_storage.get(k)`: dict lookup on the shared dict. -/
def Patch.storageGet (p : PatchState) (k : String) : Option String :=
  (Patch.local_storage p).lookup k

/-- Events a pipeline-element constructor could emit.  Per the spec
(§4.4, §6) construction performs no I/O; `create` threads this trace so
that the frame claim is a statement about the composition. -/
inductive IOEvent where
  | httpRequest (url : String)
  deriving DecidableEq, Repr

/-- The pipeline element graph built by `PeriodicJamsPatch.create`
(`src/troi/patches/periodic_jams.py`).  Each constructor records the
arguments passed at the corresponding call site; a non-leaf constructor's
final argument is the single source attached by `set_sources`.  The
never-listened filter's flag is `Option Bool`: `none` means the call site
passed no argument (Python default-argument call), `some b` means it
passed `remove_unlistened=b`. -/
inductive Elem where
  | userRecs (user : String) (typ : String) (count : Nat) (token : Option String)
  | recentListensTimestampLookup (user : String) (days : Nat) (token : Option String) (src : Elem)
  | neverListenedFilter (remove_unlistened : Option Bool) (src : Elem)
  | latestListenedAtFilter (days : Nat) (src : Elem)
  | listensFeedbackLookup (user : String) (token : Option String) (src : Elem)
  | recordingLookup (src : Elem)
  | hatedRecordingsFilter (src : Elem)
  | playlistMaker (name : String) (desc : String) (patch_slug : String)
      (max_num_recordings : Nat) (max_artist_occurrence : Nat) (shuffle : Bool)
      (expires_at : String) (is_april_first : Bool) (src : Elem)
  deriving DecidableEq, Repr

/-- The sources of each element: every stage except the leaf has exactly the
one source attached to it by `set_sources`. -/
def Elem.sources : Elem → List Elem
  | .userRecs _ _ _ _ => []
  | .recentListensTimestampLookup _ _ _ s => [s]
  | .neverListenedFilter _ s => [s]
  | .latestListenedAtFilter _ s => [s]
  | .listensFeedbackLookup _ _ s => [s]
  | .recordingLookup s => [s]
  | .hatedRecordingsFilter s => [s]
  | .playlistMaker _ _ _ _ _ _ _ _ s => [s]

/-- The source-arity of every stage from the terminal element down to the
leaf, in wiring order. -/
def Elem.sourceArities : Elem → List Nat
  | .userRecs _ _ _ _ => [0]
  | .recentListensTimestampLookup _ _ _ s => 1 :: s.sourceArities
  | .neverListenedFilter _ s => 1 :: s.sourceArities
  | .latestListenedAtFilter _ s => 1 :: s.sourceArities
  | .listensFeedbackLookup _ _ s => 1 :: s.sourceArities
  | .recordingLookup s => 1 :: s.sourceArities
  | .hatedRecordingsFilter s => 1 :: s.sourceArities
  | .playlistMaker _ _ _ _ _ _ _ _ s => 1 :: s.sourceArities

/-- Locate the never-listened filter in a pipeline: the flag it was
constructed with (`none` = Python default-argument call) and its sole
source. -/
def Elem.findNeverListened : Elem → Option (Option Bool × Elem)
  | .neverListenedFilter fl s => some (fl, s)
  | .userRecs _ _ _ _ => none
  | .recentListensTimestampLookup _ _ _ s => s.findNeverListened
  | .latestListenedAtFilter _ s => s.findNeverListened
  | .listensFeedbackLookup _ _ s => s.findNeverListened
  | .recordingLookup s => s.findNeverListened
  | .hatedRecordingsFilter s => s.findNeverListened
  | .playlistMaker _ _ _ _ _ _ _ _ s => s.findNeverListened

/-- Modelled from the spec: the bodies of the element constructors called by
`PeriodicJamsPatch.create` (`troi.listenbrainz.recs`, `troi.listenbrainz.listens`,
`troi.filters`, `troi.listenbrainz.feedback`,
`troi.musicbrainz.recording_lookup`, `troi.playlist`) are not under `src/`;
per §6 a leaf "may accept authentication/config parameters at construction
time but performs no I/O until `generate` is called", so each constructor
returns its element description together with an empty I/O-event trace. -/
def mkElem (e : Elem) : Elem × List IOEvent := (e, [])

/-- `PeriodicJamsPatch.JAM_TYPES` (`src/troi/patches/periodic_jams.py` line 48). -/
def JAM_TYPES : List String := ["daily-jams", "weekly-jams", "weekly-exploration"]

/-- `DAYS_OF_RECENT_LISTENS_TO_EXCLUDE` (line 12). -/
def DAYS_OF_RECENT_LISTENS_TO_EXCLUDE : Nat := 60

/-- Python string slicing `s[a:b]` for `0 ≤ a ≤ b`: characters at positions
`a` to `b-1`, truncated at the end of the string. -/
def pySlice (s : String) (a b : Nat) : String :=
  ⟨(s.data.drop a).take (b - a)⟩

/-- Python's `str.lower()` on the ASCII identifiers this code handles:
lower-case every character. -/
def pyLower (s : String) : String :=
  ⟨s.data.map Char.toLower⟩

/-- The error message for an invalid jam type (line 104): the source joins
`jam_types` — the *lowercased string*, not the tuple of jam types — with
`", "`, so the message lists the characters of the lowercased input. -/
def jamTypeErrorMsg (t : String) : String :=
  "Jam type must be one of " ++
    String.intercalate ", " ((pyLower t).data.map (fun c => String.mk [c]))

/-- The inputs mapping handed to `PeriodicJamsPatch.create`: `user_name` is
required (the claims under verification all assume it present), the others
are optional. -/
structure Inputs where
  user_name : String
  type? : Option String
  jam_date? : Option String
  token? : Option String
  deriving DecidableEq, Repr

/-- Lines 134-156 of `src/troi/patches/periodic_jams.py`: the tail of the
pipeline common to all three jam types, from the latest-listened-at filter
to the playlist maker, continuing the accumulated I/O-event trace `ev`. -/
def createTail (inputs : Inputs) (user_name jam_name jam_date jam_type expiresAt : String)
    (never_listened : Elem) (ev : List IOEvent) :
    Except PyError Elem × List IOEvent :=
  let (latest_filter, ev4) :=
    mkElem (.latestListenedAtFilter DAYS_OF_RECENT_LISTENS_TO_EXCLUDE never_listened)
  let (feedback_lookup, ev5) :=
    mkElem (.listensFeedbackLookup user_name inputs.token? latest_filter)
  let (recs_lookup, ev6) := mkElem (.recordingLookup feedback_lookup)
  let (hate_filter, ev7) := mkElem (.hatedRecordingsFilter recs_lookup)
  let (pl_maker, ev8) := mkElem (.playlistMaker
    (jam_name ++ " for " ++ user_name ++ ", " ++ jam_date)
    (jam_name ++ " playlist!")
    jam_type 50 2 true expiresAt
    (pySlice jam_date 5 10 == "04-01")
    hate_filter)
  (.ok pl_maker, ev ++ ev4 ++ ev5 ++ ev6 ++ ev7 ++ ev8)

/-- Lines 106-132 of `src/troi/patches/periodic_jams.py`: once the jam type
has passed validation, build the recommendations element, the recent-listens
lookup and the branch-dependent never-listened filter, then the common tail. -/
def createValidated (inputs : Inputs) (user_name jam_date0 jam_type expiresAt : String) :
    Except PyError Elem × List IOEvent :=
  let (recs, ev1) := mkElem (.userRecs user_name "raw" 1000 inputs.token?)
  let (recent_listens_lookup, ev2) :=
    mkElem (.recentListensTimestampLookup user_name 2 inputs.token? recs)
  if jam_type ∈ ["daily-jams", "weekly-jams"] then
    let (never_listened, ev3) := mkElem (.neverListenedFilter none recent_listens_lookup)
    let jam_name := if jam_type = "daily-jams" then "Daily Jams" else "Weekly Jams"
    let jam_date := if jam_type = "daily-jams" then jam_date0 else "week of " ++ jam_date0
    createTail inputs user_name jam_name jam_date jam_type expiresAt never_listened
      (ev1 ++ ev2 ++ ev3)
  else if jam_type = "weekly-exploration" then
    let (never_listened, ev3) :=
      mkElem (.neverListenedFilter (some false) recent_listens_lookup)
    let jam_name := "Weekly Exploration"
    let jam_date := "week of " ++ jam_date0
    createTail inputs user_name jam_name jam_date jam_type expiresAt never_listened
      (ev1 ++ ev2 ++ ev3)
  else
    (.error (.runtimeError "someone goofed up!"), ev1 ++ ev2)

/-- `PeriodicJamsPatch.create` (`src/troi/patches/periodic_jams.py` lines
93-156).  `todayStr` stands for `datetime.utcnow().strftime("%Y-%m-%d %a")`
and `expiresAt` for `datetime.utcnow() + timedelta(weeks=2)`, the only two
environment reads.  The result pairs the raised-error-or-terminal-element
with the trace of I/O events produced while `create` ran (empty on the
error path because the `raise` happens before any constructor call). -/
def create (inputs : Inputs) (todayStr : String) (expiresAt : String) :
    Except PyError Elem × List IOEvent :=
  let user_name := inputs.user_name
  let jam_date0 := match inputs.jam_date? with
    | none => todayStr
    | some d => d
  match inputs.type? with
  | none => createValidated inputs user_name jam_date0 (JAM_TYPES[0]!) expiresAt
  | some t =>
      -- jam_types = jam_type.lower() is computed but the membership test
      -- and the later branches use the original jam_type
      if t ∈ JAM_TYPES then
        createValidated inputs user_name jam_date0 t expiresAt
      else
        (.error (.runtimeError (jamTypeErrorMsg t)), [])

/-- A candidate recording as seen by the assembly stage: its stable
recording id and its primary artist's id. -/
structure Recording where
  id : Nat
  artistId : Nat
  deriving DecidableEq, Repr

/-- A produced playlist: presentation metadata and the assembled recordings. -/
structure Playlist where
  name : String
  desc : String
  recordings : List Recording
  deriving DecidableEq, Repr

/-- The artist-occurrence counter of §4.3 step 1, realised as an association
list: an absent artist id counts 0. -/
def artistCount (counts : List (Nat × Nat)) (a : Nat) : Nat :=
  (counts.lookup a).getD 0

/-- Modelled from the spec: `PlaylistMakerElement.read` (`troi/playlist.py`)
is not under `src/`; this is the single-pass walk of §4.3 steps 1-3.
State: remaining input, seen-recording-id set, artist-occurrence counter,
and the output accumulated in reverse.  For each recording: stop once the
output has reached `maxNum`; skip it if its id was seen; skip it if
admitting it would push its primary artist past `maxArtist`; otherwise
append it, mark its id seen and bump its artist's count. -/
def assembleGo (maxNum maxArtist : Nat) :
    List Recording → List Nat → List (Nat × Nat) → List Recording → List Recording
  | [], _, _, out => out.reverse
  | r :: rest, seen, counts, out =>
    if maxNum ≤ out.length then
      out.reverse
    else if r.id ∈ seen then
      assembleGo maxNum maxArtist rest seen counts out
    else if maxArtist < artistCount counts r.artistId + 1 then
      assembleGo maxNum maxArtist rest seen counts out
    else
      assembleGo maxNum maxArtist rest (r.id :: seen)
        ((r.artistId, artistCount counts r.artistId + 1) :: counts) (r :: out)

/-- Modelled from the spec (§4.3 steps 1-3): the selection pass over the
input in rank order, starting from empty state. -/
def assemble (maxNum maxArtist : Nat) (input : List Recording) : List Recording :=
  assembleGo maxNum maxArtist input [] [] []

/-- Modelled from the spec (§4.3 steps 4-5): wrap the selection as a
Playlist; with `shuffle` set, randomize only the final output order —
`perm` stands for the randomizer and is constrained to be a permutation in
the theorems that use it. -/
def makePlaylist (name desc : String) (maxNum maxArtist : Nat) (shuffle : Bool)
    (perm : List Recording → List Recording) (input : List Recording) : Playlist :=
  let selected := assemble maxNum maxArtist input
  { name := name, desc := desc,
    recordings := if shuffle then perm selected else selected }

/-! ## Claim C1: exception type of failing `area_lookup` lookups -/

/-- C1 counterexample: a lookup in which the service responds with status
200 and a well-formed JSON body holding zero rows is a failing lookup, yet
the exception `area_lookup` raises is `RuntimeError`, not `PipelineError`
(`src/troi/tools/area_lookup.py` line 27). -/
theorem C1_zero_rows_raises_runtime_error :
    area_lookup (fun _ => Except.ok []) ⟨200, "[]"⟩ =
      Except.error (PyError.runtimeError
        "Cannot find area name. Must be spelled exactly as in MusicBrainz.") ∧
    (PyError.runtimeError
        "Cannot find area name. Must be spelled exactly as in MusicBrainz.").isPipelineError
      = false := by
  exact ⟨rfl, rfl⟩

/-- C1 amended: every failing lookup in `area_lookup` raises `PipelineError`
except the zero-rows case: a non-200 response and an unparsable 200 body
raise `PipelineError`, while a successful response with zero rows raises
`RuntimeError`. -/
theorem C1_error_taxonomy (parse : String → Except String (List AreaRow))
    (r : HttpResponse) :
    (r.status_code ≠ 200 →
      area_lookup parse r =
        Except.error (PyError.pipelineError ("Cannot lookup area name. " ++ r.text))) ∧
    (∀ err, r.status_code = 200 → parse r.text = Except.error err →
      area_lookup parse r =
        Except.error (PyError.pipelineError
          ("Cannot lookup area name, invalid JSON returned: " ++ err))) ∧
    (r.status_code = 200 → parse r.text = Except.ok [] →
      area_lookup parse r =
        Except.error (PyError.runtimeError
          "Cannot find area name. Must be spelled exactly as in MusicBrainz.")) := by
  refine ⟨fun h => ?_, fun err h200 hp => ?_, fun h200 hp => ?_⟩
  · simp [area_lookup, h]
  · simp [area_lookup, h200, hp]
  · simp [area_lookup, h200, hp]

/-- C1 witness: the amended taxonomy evaluated at one concrete lookup per
failure kind. -/
theorem C1_error_taxonomy_witness :
    area_lookup (fun _ => Except.ok []) ⟨404, "boom"⟩ =
      Except.error (PyError.pipelineError "Cannot lookup area name. boom") ∧
    area_lookup (fun _ => Except.error "bad json") ⟨200, "x"⟩ =
      Except.error (PyError.pipelineError
        "Cannot lookup area name, invalid JSON returned: bad json") ∧
    area_lookup (fun _ => Except.ok []) ⟨200, "[]"⟩ =
      Except.error (PyError.runtimeError
        "Cannot find area name. Must be spelled exactly as in MusicBrainz.") :=
  ⟨(C1_error_taxonomy (fun _ => Except.ok []) ⟨404, "boom"⟩).1 (by decide),
   (C1_error_taxonomy (fun _ => Except.error "bad json") ⟨200, "x"⟩).2.1 "bad json" rfl rfl,
   (C1_error_taxonomy (fun _ => Except.ok []) ⟨200, "[]"⟩).2.2 rfl rfl⟩

/-! ## Claim C5: network-level failures of `area_lookup` -/

/-- C5: `area_lookup` raises `PipelineError` on every network-level
collaborator failure: a response with status other than 200 raises
`PipelineError` carrying the response text, and a 200 response whose body
fails to parse as JSON raises `PipelineError` carrying the parse error
(`src/troi/tools/area_lookup.py` lines 17-24). -/
theorem C5_network_failures_pipeline_error
    (parse : String → Except String (List AreaRow)) (r : HttpResponse) :
    (r.status_code ≠ 200 →
      area_lookup parse r =
        Except.error (PyError.pipelineError ("Cannot lookup area name. " ++ r.text))) ∧
    (∀ err, r.status_code = 200 → parse r.text = Except.error err →
      area_lookup parse r =
        Except.error (PyError.pipelineError
          ("Cannot lookup area name, invalid JSON returned: " ++ err))) := by
  constructor
  · intro h
    simp [area_lookup, h]
  · intro err h200 hp
    simp [area_lookup, h200, hp]

/-- C5 witness: both network-failure branches at concrete responses. -/
theorem C5_network_failures_witness :
    area_lookup (fun _ => Except.ok []) ⟨500, "oops"⟩ =
      Except.error (PyError.pipelineError "Cannot lookup area name. oops") ∧
    area_lookup (fun _ => Except.error "EOF") ⟨200, "t"⟩ =
      Except.error (PyError.pipelineError
        "Cannot lookup area name, invalid JSON returned: EOF") :=
  ⟨(C5_network_failures_pipeline_error (fun _ => Except.ok []) ⟨500, "oops"⟩).1 (by decide),
   (C5_network_failures_pipeline_error (fun _ => Except.error "EOF") ⟨200, "t"⟩).2 "EOF" rfl rfl⟩

/-! ## Claim C6: patch local storage -/

/-- C6: the `local_storage` property always hands back the patch's one
storage dict, which is empty at construction; a key written through it is
visible to every later read in the same run, and rewriting a present key
replaces its value (last-wins).  In the state-passing embedding, "same
mutable mapping, shared by reference" appears as: every read is exactly the
projection of the current patch state's `_local_storage` field, so writes
through the returned mapping are writes to the patch's own field. -/
theorem C6_local_storage_shared_last_wins :
    Patch.local_storage Patch.init = [] ∧
    (∀ p : PatchState, Patch.local_storage p = p._local_storage) ∧
    (∀ (p : PatchState) (k v : String),
      Patch.storageGet (Patch.storageSet p k v) k = some v) ∧
    (∀ (p : PatchState) (k v₁ v₂ : String),
      Patch.storageGet (Patch.storageSet (Patch.storageSet p k v₁) k v₂) k = some v₂) := by
  refine ⟨rfl, fun p => rfl, fun p k v => ?_, fun p k v₁ v₂ => ?_⟩
  · simp [Patch.storageGet, Patch.storageSet, Patch.local_storage, List.lookup]
  · simp [Patch.storageGet, Patch.storageSet, Patch.local_storage, List.lookup]

/-! ## Claim C2: fail-fast on invalid jam type -/

/-- C2 counterexample: with `'type'` set to the invalid value `"foo"`,
`PeriodicJamsPatch.create` does fail fast (error result, empty I/O trace)
but the raised error is `RuntimeError`, not `PipelineError`
(`src/troi/patches/periodic_jams.py` line 104). -/
theorem C2_invalid_type_raises_runtime_error :
    create ⟨"rob", some "foo", none, none⟩ "2026-01-05 Mon" "2026-01-19" =
      (Except.error (PyError.runtimeError "Jam type must be one of f, o, o"), []) ∧
    (PyError.runtimeError "Jam type must be one of f, o, o").isPipelineError = false :=
  ⟨rfl, rfl⟩

/-- C2 amended: for every inputs mapping whose `'type'` value is present but
not one of the three jam types, `create` raises before constructing or
executing any pipeline stage (the result is an error paired with an empty
I/O-event trace), but the error raised is `RuntimeError`, not
`PipelineError`. -/
theorem C2_invalid_type_fails_fast (u td ex t : String) (jd tok : Option String)
    (hmem : t ∉ JAM_TYPES) :
    create ⟨u, some t, jd, tok⟩ td ex =
      (Except.error (PyError.runtimeError (jamTypeErrorMsg t)), []) := by
  simp [create, hmem]

/-- C2 witness: the amended fail-fast behaviour at the concrete invalid
type `"foo"`. -/
theorem C2_invalid_type_fails_fast_witness :
    "foo" ∉ JAM_TYPES ∧
    create ⟨"rob", some "foo", some "2026-01-05", none⟩ "t" "e" =
      (Except.error (PyError.runtimeError (jamTypeErrorMsg "foo")), []) :=
  ⟨by decide, C2_invalid_type_fails_fast "rob" "t" "e" "foo" (some "2026-01-05") none (by decide)⟩

/-! ## Claim C4: `create` performs no I/O -/

/-- C4: for every inputs mapping, `PeriodicJamsPatch.create` emits an empty
I/O-event trace: it only constructs element objects and links their
sources, and on the error path it raises before any construction.  (The
element constructors themselves are modelled from the spec as I/O-free,
their bodies not being under `src/`.) -/
theorem C4_create_no_io (inputs : Inputs) (td ex : String) :
    (create inputs td ex).2 = [] := by
  obtain ⟨u, ty, jd, tok⟩ := inputs
  cases ty with
  | none => rfl
  | some t =>
    by_cases h : t ∈ JAM_TYPES
    · simp only [JAM_TYPES, List.mem_cons, List.not_mem_nil, or_false] at h
      rcases h with rfl | rfl | rfl <;> rfl
    · simp [create, h]

/-! ## Claim C10: jam-type defaulting and case-sensitive matching -/

/-- C10: when the inputs mapping has no `'type'` entry (Python's
`inputs.get('type')` returns `None` both when the key is missing and when
it is set to `None`; the model folds both into `type? = none`), the jam
type defaults to `"daily-jams"`: `create` then behaves exactly as if
`'type'` were `"daily-jams"`, and the built playlist-maker's `patch_slug`
is `"daily-jams"`.  When `'type'` is present it is matched against
`JAM_TYPES` case-sensitively: `"Daily-Jams"` is rejected with an error even
though its lowercase form, which the code computes and then ignores for the
membership test, is a valid jam type. -/
theorem C10_type_defaulting_case_sensitive (u td ex : String) (jd tok : Option String) :
    create ⟨u, none, jd, tok⟩ td ex = create ⟨u, some "daily-jams", jd, tok⟩ td ex ∧
    (∃ nm ds apr e, (create ⟨u, none, jd, tok⟩ td ex).1 =
      Except.ok (Elem.playlistMaker nm ds "daily-jams" 50 2 true ex apr e)) ∧
    (create ⟨u, some "Daily-Jams", jd, tok⟩ td ex).1 =
      Except.error (PyError.runtimeError (jamTypeErrorMsg "Daily-Jams")) ∧
    pyLower "Daily-Jams" ∈ JAM_TYPES :=
  ⟨rfl, ⟨_, _, _, _, rfl⟩, rfl, by decide⟩

/-! ## Claim C3: pipeline chain shape for valid inputs -/

/-- C3: for every valid inputs mapping (a `user_name` and a `'type'` that is
absent or one of the three jam types), `create` returns the terminal
playlist-maker of a single rooted chain wired recommendations element →
recent-listens timestamp lookup → never-listened filter →
latest-listened-at filter → feedback lookup → recording lookup →
hated-recordings filter → playlist maker, each stage with exactly one
source, and with an empty I/O-event trace (no stage executed). -/
theorem C3_pipeline_chain (u td ex : String) (jd tok ty : Option String)
    (hval : ty = none ∨ ∃ t, ty = some t ∧ t ∈ JAM_TYPES) :
    ∃ nm ds slug apr nl e,
      e = Elem.playlistMaker nm ds slug 50 2 true ex apr
            (Elem.hatedRecordingsFilter (Elem.recordingLookup
              (Elem.listensFeedbackLookup u tok
                (Elem.latestListenedAtFilter 60 (Elem.neverListenedFilter nl
                  (Elem.recentListensTimestampLookup u 2 tok
                    (Elem.userRecs u "raw" 1000 tok))))))) ∧
      create ⟨u, ty, jd, tok⟩ td ex = (Except.ok e, []) ∧
      e.sourceArities = [1, 1, 1, 1, 1, 1, 1, 0] := by
  rcases hval with rfl | ⟨t, rfl, hmem⟩
  · exact ⟨_, _, _, _, _, _, rfl, rfl, rfl⟩
  · simp only [JAM_TYPES, List.mem_cons, List.not_mem_nil, or_false] at hmem
    rcases hmem with rfl | rfl | rfl <;> exact ⟨_, _, _, _, _, _, rfl, rfl, rfl⟩

/-- C3 witness: the chain at a concrete valid inputs mapping. -/
theorem C3_pipeline_chain_witness :
    ∃ nm ds slug apr nl e,
      e = Elem.playlistMaker nm ds slug 50 2 true "2026-01-19" apr
            (Elem.hatedRecordingsFilter (Elem.recordingLookup
              (Elem.listensFeedbackLookup "rob" none
                (Elem.latestListenedAtFilter 60 (Elem.neverListenedFilter nl
                  (Elem.recentListensTimestampLookup "rob" 2 none
                    (Elem.userRecs "rob" "raw" 1000 none))))))) ∧
      create ⟨"rob", some "weekly-jams", some "2026-01-05", none⟩ "t" "2026-01-19" =
        (Except.ok e, []) ∧
      e.sourceArities = [1, 1, 1, 1, 1, 1, 1, 0] :=
  C3_pipeline_chain "rob" "t" "2026-01-19" (some "2026-01-05") none
    (some "weekly-jams") (Or.inr ⟨"weekly-jams", rfl, by decide⟩)

/-! ## Claim C7: never-listened filter flag selection -/

/-- C7: the never-listened filter's boolean sense is selected by a single
constructor flag on one class: jam types `"daily-jams"` and `"weekly-jams"`
construct `NeverListenedFilterElement` with the flag left at its default
(`none` in the model: no argument passed), `"weekly-exploration"` constructs
the same class with `remove_unlistened=False`, and in all three cases the
filter's sole source is the recent-listens timestamp lookup. -/
theorem C7_never_listened_flag (u td ex : String) (jd tok : Option String) :
    (∃ e, (create ⟨u, some "daily-jams", jd, tok⟩ td ex).1 = Except.ok e ∧
      e.findNeverListened = some (none,
        Elem.recentListensTimestampLookup u 2 tok (Elem.userRecs u "raw" 1000 tok))) ∧
    (∃ e, (create ⟨u, some "weekly-jams", jd, tok⟩ td ex).1 = Except.ok e ∧
      e.findNeverListened = some (none,
        Elem.recentListensTimestampLookup u 2 tok (Elem.userRecs u "raw" 1000 tok))) ∧
    (∃ e, (create ⟨u, some "weekly-exploration", jd, tok⟩ td ex).1 = Except.ok e ∧
      e.findNeverListened = some (some false,
        Elem.recentListensTimestampLookup u 2 tok (Elem.userRecs u "raw" 1000 tok))) :=
  ⟨⟨_, rfl, rfl⟩, ⟨_, rfl, rfl⟩, ⟨_, rfl, rfl⟩⟩

/-! ## Claim C9: the april-first flag for weekly jam types -/

/-- Helper: because the weekly branches prefix the jam date with
`"week of "`, Python's `jam_date[5:10]` lands on `"of " + jam_date[:2]`
and can never equal `"04-01"` (its first character is `'o'`). -/
theorem pySlice_week_of (d : String) :
    (pySlice ("week of " ++ d) 5 10 == "04-01") = false := by
  rw [Bool.eq_false_iff]
  intro h
  rw [beq_iff_eq] at h
  have h2 := congrArg String.data h
  have hdata : ("week of " ++ d).data = "week of ".data ++ d.data := rfl
  simp [pySlice, hdata] at h2

/-- C9: for jam types `"weekly-jams"` and `"weekly-exploration"` the
`is_april_first` flag handed to the playlist maker is `false` for every
possible `jam_date` input (absent or any string), because the date string
is prefixed with `"week of "` before positions 5-9 are compared with
`"04-01"`; only `"daily-jams"` keeps the raw date, whose positions 5-9 can
equal `"04-01"` for a date of the form `YYYY-04-01`. -/
theorem C9_april_first_flag (u td ex : String) (jd tok : Option String) :
    (∃ nm ds src, (create ⟨u, some "weekly-jams", jd, tok⟩ td ex).1 =
        Except.ok (Elem.playlistMaker nm ds "weekly-jams" 50 2 true ex false src)) ∧
    (∃ nm ds src, (create ⟨u, some "weekly-exploration", jd, tok⟩ td ex).1 =
        Except.ok (Elem.playlistMaker nm ds "weekly-exploration" 50 2 true ex false src)) ∧
    (∀ d : String, ∃ nm ds src,
        (create ⟨u, some "daily-jams", some d, tok⟩ td ex).1 =
          Except.ok (Elem.playlistMaker nm ds "daily-jams" 50 2 true ex
            (pySlice d 5 10 == "04-01") src)) ∧
    (pySlice "2026-04-01" 5 10 == "04-01") = true := by
  refine ⟨?_, ?_, fun d => ⟨_, _, _, rfl⟩, by decide⟩
  · cases jd with
    | none =>
      have h : (create ⟨u, some "weekly-jams", none, tok⟩ td ex).1 =
          Except.ok (Elem.playlistMaker
            ("Weekly Jams" ++ " for " ++ u ++ ", " ++ ("week of " ++ td))
            ("Weekly Jams" ++ " playlist!") "weekly-jams" 50 2 true ex
            (pySlice ("week of " ++ td) 5 10 == "04-01")
            (Elem.hatedRecordingsFilter (Elem.recordingLookup (Elem.listensFeedbackLookup u tok
              (Elem.latestListenedAtFilter 60 (Elem.neverListenedFilter none
                (Elem.recentListensTimestampLookup u 2 tok
                  (Elem.userRecs u "raw" 1000 tok)))))))) := rfl
      rw [pySlice_week_of td] at h
      exact ⟨_, _, _, h⟩
    | some d =>
      have h : (create ⟨u, some "weekly-jams", some d, tok⟩ td ex).1 =
          Except.ok (Elem.playlistMaker
            ("Weekly Jams" ++ " for " ++ u ++ ", " ++ ("week of " ++ d))
            ("Weekly Jams" ++ " playlist!") "weekly-jams" 50 2 true ex
            (pySlice ("week of " ++ d) 5 10 == "04-01")
            (Elem.hatedRecordingsFilter (Elem.recordingLookup (Elem.listensFeedbackLookup u tok
              (Elem.latestListenedAtFilter 60 (Elem.neverListenedFilter none
                (Elem.recentListensTimestampLookup u 2 tok
                  (Elem.userRecs u "raw" 1000 tok)))))))) := rfl
      rw [pySlice_week_of d] at h
      exact ⟨_, _, _, h⟩
  · cases jd with
    | none =>
      have h : (create ⟨u, some "weekly-exploration", none, tok⟩ td ex).1 =
          Except.ok (Elem.playlistMaker
            ("Weekly Exploration" ++ " for " ++ u ++ ", " ++ ("week of " ++ td))
            ("Weekly Exploration" ++ " playlist!") "weekly-exploration" 50 2 true ex
            (pySlice ("week of " ++ td) 5 10 == "04-01")
            (Elem.hatedRecordingsFilter (Elem.recordingLookup (Elem.listensFeedbackLookup u tok
              (Elem.latestListenedAtFilter 60 (Elem.neverListenedFilter (some false)
                (Elem.recentListensTimestampLookup u 2 tok
                  (Elem.userRecs u "raw" 1000 tok)))))))) := rfl
      rw [pySlice_week_of td] at h
      exact ⟨_, _, _, h⟩
    | some d =>
      have h : (create ⟨u, some "weekly-exploration", some d, tok⟩ td ex).1 =
          Except.ok (Elem.playlistMaker
            ("Weekly Exploration" ++ " for " ++ u ++ ", " ++ ("week of " ++ d))
            ("Weekly Exploration" ++ " playlist!") "weekly-exploration" 50 2 true ex
            (pySlice ("week of " ++ d) 5 10 == "04-01")
            (Elem.hatedRecordingsFilter (Elem.recordingLookup (Elem.listensFeedbackLookup u tok
              (Elem.latestListenedAtFilter 60 (Elem.neverListenedFilter (some false)
                (Elem.recentListensTimestampLookup u 2 tok
                  (Elem.userRecs u "raw" 1000 tok)))))))) := rfl
      rw [pySlice_week_of d] at h
      exact ⟨_, _, _, h⟩

/-! ## Claim C8: playlist-assembly constraints -/

/-- The output never grows past `maxNum` recordings. -/
theorem assembleGo_length_le (maxNum maxArtist : Nat) :
    ∀ (rest : List Recording) (seen : List Nat) (counts : List (Nat × Nat))
      (out : List Recording), out.length ≤ maxNum →
      (assembleGo maxNum maxArtist rest seen counts out).length ≤ maxNum := by
  intro rest
  induction rest with
  | nil =>
    intro seen counts out h
    simpa [assembleGo] using h
  | cons r rest ih =>
    intro seen counts out h
    simp only [assembleGo]
    split_ifs with h1 h2 h3
    · simpa using h
    · exact ih _ _ _ h
    · exact ih _ _ _ h
    · exact ih _ _ _ (by simpa using Nat.succ_le_of_lt (Nat.lt_of_not_le h1))

/-- If the accumulated output has distinct recording ids all recorded in the
seen set, the final output's recording ids are distinct. -/
theorem assembleGo_nodup (maxNum maxArtist : Nat) :
    ∀ (rest : List Recording) (seen : List Nat) (counts : List (Nat × Nat))
      (out : List Recording),
      (out.map Recording.id).Nodup → (∀ r ∈ out, r.id ∈ seen) →
      ((assembleGo maxNum maxArtist rest seen counts out).map Recording.id).Nodup := by
  intro rest
  induction rest with
  | nil =>
    intro seen counts out hnd hseen
    simpa [assembleGo, List.map_reverse, List.nodup_reverse] using hnd
  | cons r rest ih =>
    intro seen counts out hnd hseen
    simp only [assembleGo]
    split_ifs with h1 h2 h3
    · simpa [List.map_reverse, List.nodup_reverse] using hnd
    · exact ih _ _ _ hnd hseen
    · exact ih _ _ _ hnd hseen
    · apply ih
      · refine List.Nodup.cons ?_ hnd
        intro hmem
        rcases List.mem_map.mp hmem with ⟨x, hx, hxid⟩
        exact h2 (hxid ▸ hseen x hx)
      · intro x hx
        rcases List.mem_cons.mp hx with rfl | hx'
        · exact List.mem_cons_self _ _
        · exact List.mem_cons_of_mem _ (hseen x hx')

/-- If the artist-occurrence counter agrees with the accumulated output and
every artist is within the cap, every artist stays within the cap. -/
theorem assembleGo_artist_cap (maxNum maxArtist : Nat) :
    ∀ (rest : List Recording) (seen : List Nat) (counts : List (Nat × Nat))
      (out : List Recording),
      (∀ b, artistCount counts b = (out.filter (fun x => x.artistId == b)).length) →
      (∀ b, (out.filter (fun x => x.artistId == b)).length ≤ maxArtist) →
      ∀ a, ((assembleGo maxNum maxArtist rest seen counts out).filter
            (fun x => x.artistId == a)).length ≤ maxArtist := by
  intro rest
  induction rest with
  | nil =>
    intro seen counts out hcnt hcap a
    simpa [assembleGo, List.filter_reverse] using hcap a
  | cons r rest ih =>
    intro seen counts out hcnt hcap a
    simp only [assembleGo]
    split_ifs with h1 h2 h3
    · simpa [List.filter_reverse] using hcap a
    · exact ih _ _ _ hcnt hcap a
    · exact ih _ _ _ hcnt hcap a
    · apply ih
      · intro b
        by_cases hb : r.artistId = b
        · subst hb
          simp [artistCount, List.lookup, List.filter, hcnt r.artistId]
          exact hcnt r.artistId
        · have h1e : (b == r.artistId) = false :=
            beq_eq_false_iff_ne.mpr (fun h => hb h.symm)
          have h2e : (r.artistId == b) = false := beq_eq_false_iff_ne.mpr hb
          simp [artistCount, List.lookup, List.filter, h1e, h2e]
          exact hcnt b
      · intro b
        by_cases hb : r.artistId = b
        · subst hb
          have hle : artistCount counts r.artistId + 1 ≤ maxArtist := Nat.le_of_not_lt h3
          rw [hcnt r.artistId] at hle
          simpa [List.filter] using hle
        · have h2e : (r.artistId == b) = false := beq_eq_false_iff_ne.mpr hb
          simpa [List.filter, h2e] using hcap b

/-- Validation of the model against the spec's §8 scenario: six recordings
from artists A,A,A,B,B,C in rank order, cap 2 per artist, limit 4 →
the first two A's and the first two B's, in original order. -/
theorem assemble_rank_scenario :
    assemble 4 2 [⟨1, 100⟩, ⟨2, 100⟩, ⟨3, 100⟩, ⟨4, 200⟩, ⟨5, 200⟩, ⟨6, 300⟩] =
      [⟨1, 100⟩, ⟨2, 100⟩, ⟨4, 200⟩, ⟨5, 200⟩] := by decide

/-- C8: with the configuration `PeriodicJamsPatch.create` passes to
`PlaylistMakerElement` (`max_num_recordings = 50`, `max_artist_occurrence
= 2`, `shuffle = True`), for every input list of candidate recordings the
produced playlist has no repeated recording id, at most 2 recordings per
primary artist id, and at most 50 recordings — for any shuffle that is a
permutation of the selection. -/
theorem C8_playlist_constraints (nm ds : String)
    (perm : List Recording → List Recording)
    (hperm : ∀ l, List.Perm (perm l) l) (input : List Recording) :
    ((makePlaylist nm ds 50 2 true perm input).recordings.map Recording.id).Nodup ∧
    (∀ a, ((makePlaylist nm ds 50 2 true perm input).recordings.filter
        (fun x => x.artistId == a)).length ≤ 2) ∧
    (makePlaylist nm ds 50 2 true perm input).recordings.length ≤ 50 := by
  have hsel := hperm (assemble 50 2 input)
  have hrec : (makePlaylist nm ds 50 2 true perm input).recordings
      = perm (assemble 50 2 input) := rfl
  refine ⟨?_, fun a => ?_, ?_⟩
  · rw [hrec]
    exact ((hsel.map Recording.id).nodup_iff).mpr
      (assembleGo_nodup 50 2 input [] [] [] (by simp) (by simp))
  · rw [hrec, (hsel.filter _).length_eq]
    exact assembleGo_artist_cap 50 2 input [] [] [] (fun b => rfl) (fun b => by simp) a
  · rw [hrec, hsel.length_eq]
    exact assembleGo_length_le 50 2 input [] [] [] (by simp)

/-- C8 witness: the constraints at the spec's §8 scenario input with the
identity shuffle. -/
theorem C8_playlist_constraints_witness :
    ((makePlaylist "n" "d" 50 2 true id
        [⟨1, 100⟩, ⟨2, 100⟩, ⟨3, 100⟩, ⟨4, 200⟩, ⟨5, 200⟩, ⟨6, 300⟩]).recordings.map
          Recording.id).Nodup ∧
    ((makePlaylist "n" "d" 50 2 true id
        [⟨1, 100⟩, ⟨2, 100⟩, ⟨3, 100⟩, ⟨4, 200⟩, ⟨5, 200⟩, ⟨6, 300⟩]).recordings.filter
          (fun x => x.artistId == 100)).length ≤ 2 ∧
    (makePlaylist "n" "d" 50 2 true id
        [⟨1, 100⟩, ⟨2, 100⟩, ⟨3, 100⟩, ⟨4, 200⟩, ⟨5, 200⟩, ⟨6, 300⟩]).recordings.length
      ≤ 50 :=
  ⟨(C8_playlist_constraints "n" "d" id (fun l => List.Perm.refl l)
      [⟨1, 100⟩, ⟨2, 100⟩, ⟨3, 100⟩, ⟨4, 200⟩, ⟨5, 200⟩, ⟨6, 300⟩]).1,
   (C8_playlist_constraints "n" "d" id (fun l => List.Perm.refl l)
      [⟨1, 100⟩, ⟨2, 100⟩, ⟨3, 100⟩, ⟨4, 200⟩, ⟨5, 200⟩, ⟨6, 300⟩]).2.1 100,
   (C8_playlist_constraints "n" "d" id (fun l => List.Perm.refl l)
      [⟨1, 100⟩, ⟨2, 100⟩, ⟨3, 100⟩, ⟨4, 200⟩, ⟨5, 200⟩, ⟨6, 300⟩]).2.2⟩

end Troi
